import Mathlib

/-!
Verification of the davislib session/authentication core.

This file gives a shallow embedding of the parts of `davislib` (a Python
client for UC Davis web portals) that the specification's claims concern:

* `ProtectedApplication.request` and the nested `CAS.auth` authenticator
  (`davislib/models.py`),
* the `term_sensitive` decorator and `ScheduleBuilder.register_courses`
  (`davislib/schedule_builder.py`),
* `Registrar.course_query` (`davislib/registrar.py`),
* the `Term` / `Course` equality methods (`davislib/models.py`).

Python strings become `String`, Python `pat in s` substring tests become
`strContains`, Python dictionaries become insertion-ordered association
lists with overwrite-in-place (`dictInsert`), raised exceptions become
`Except` errors, and HTTP traffic is made observable as explicit event
traces.  The remote server is a parameter (a function giving the response
to each attempt); the embedded functions are otherwise translated
statement-by-statement from the source.
-/

namespace Davislib

/-! ## Substring matching (Python `pat in s`) -/

/-- `pat` occurs as a contiguous sublist of `s` (char-list form). -/
def listInfix (pat : List Char) : List Char → Bool
  | [] => pat.isEmpty
  | c :: rest => pat.isPrefixOf (c :: rest) || listInfix pat rest

/-- Embedding of the Python substring test `pat in s`. -/
def strContains (s pat : String) : Bool :=
  listInfix pat.toList s.toList

/-! ## HTTP responses

A `requests` response, restricted to the two fields the code inspects:
the final URL after redirects (`r.url`) and the body text (`r.text`). -/

structure Resp where
  url : String
  text : String
deriving DecidableEq

/-! ## `ProtectedApplication.request` (models.py lines 302-317)

```python
def request(self, method, base, endpoint, **kwargs):
    r = super(__class__, self).request(method, base, endpoint, **kwargs)
    if 'cas.ucdavis' not in r.url:
        # already authed
        return r
    else:
        # re-auth then send request again
        self.auth_service.auth()
        return super(__class__, self).request(method, base, endpoint, **kwargs)
```

The server is modelled by `respond : Nat → Resp`, giving the response to
the n-th issue of this request (the world may change between attempts
because `auth()` runs in between).  `auth()` is here an opaque call that
either returns normally or raises `InvalidLoginError`; its outcome is the
parameter `auth`.  Every request issued by this method and every
invocation of the authenticator is recorded in an event trace. -/

inductive PAEvent where
  /-- an HTTP request issued through `Application.request` -/
  | httpReq (method base endpoint : String)
  /-- an invocation of `self.auth_service.auth()` -/
  | authCall
deriving DecidableEq

inductive PAErr where
  | invalidLogin
deriving DecidableEq

inductive AuthBehavior where
  /-- `auth()` returns normally -/
  | succeeds
  /-- `auth()` raises `InvalidLoginError` -/
  | raisesInvalidLogin
deriving DecidableEq

/-- `'cas.ucdavis' in r.url` -/
def hasCasMarker (r : Resp) : Bool :=
  strContains r.url "cas.ucdavis"

/-- Embedding of `ProtectedApplication.request`.  Returns the result (the
response, or the propagated `InvalidLoginError`) together with the trace
of requests issued and authenticator invocations made. -/
def paRequest (method base endpoint : String) (respond : Nat → Resp)
    (auth : AuthBehavior) : Except PAErr Resp × List PAEvent :=
  let r := respond 0
  if hasCasMarker r = false then
    -- already authed
    (Except.ok r, [PAEvent.httpReq method base endpoint])
  else
    -- re-auth then send request again
    match auth with
    | AuthBehavior.succeeds =>
        (Except.ok (respond 1),
         [PAEvent.httpReq method base endpoint, PAEvent.authCall,
          PAEvent.httpReq method base endpoint])
    | AuthBehavior.raisesInvalidLogin =>
        -- the exception from auth() propagates; the retry is never issued
        (Except.error PAErr.invalidLogin,
         [PAEvent.httpReq method base endpoint, PAEvent.authCall])

/-- Number of authenticator invocations in a trace. -/
def countAuthCalls (evs : List PAEvent) : Nat :=
  (evs.filter fun ev => match ev with
    | PAEvent.authCall => true
    | _ => false).length

/-- Number of HTTP requests in a trace. -/
def countHttpReqs (evs : List PAEvent) : Nat :=
  (evs.filter fun ev => match ev with
    | PAEvent.httpReq _ _ _ => true
    | _ => false).length

/-! ## `CAS.auth` (models.py lines 328-347)

```python
def auth(self):
    auth_page = self.get(self.LOGIN_ENDPOINT)
    if '<div id="msg" class="success"' in auth_page.text:
        return # already logged in

    soup = BeautifulSoup(auth_page.text, 'html.parser')
    login_form = soup.find("form", id="fm1")

    data = dict()
    # Make sure to submit hidden fields
    for child in login_form.find_all(text=False):
        if child.has_attr('name') and child.has_attr('value'):
            data[child['name']] = child['value']

    data['username'] = self.username
    data['password'] = self.password

    r = self.post(login_form['action'], data=data)
    if '<div id="msg" class="success"' not in r.text:
        raise InvalidLoginError()
```

The parsed login page is modelled structurally: `find_all(text=False)`
yields the element nodes of the form (text nodes are excluded by
BeautifulSoup itself, so both kinds are represented and the harvesting
loop walks the element nodes only).  A Python `dict` is an
insertion-ordered map where assigning to an existing key overwrites the
value in place; `dictInsert` reproduces that. -/

/-- A node of the parsed login form: an element with its attribute list,
or a plain text node. -/
inductive FormNode where
  | element (attrs : List (String × String))
  | textNode (s : String)
deriving DecidableEq

/-- The login form `fm1`: its declared `action` attribute and its nodes. -/
structure LoginForm where
  action : String
  children : List FormNode
deriving DecidableEq

/-- The fetched login page: raw text (for the success-marker test) and the
parsed form `fm1` (taken to be present when the marker is absent, as the
code assumes). -/
structure LoginPage where
  text : String
  form : LoginForm
deriving DecidableEq

/-- Attribute lookup on an element (`child['name']`, `child.has_attr`). -/
def attrLookup (attrs : List (String × String)) (k : String) : Option String :=
  (attrs.find? fun p => p.1 = k).map Prod.snd

/-- Python `d[k] = v` on an insertion-ordered dict: overwrite in place if
`k` is already a key, else append. -/
def dictInsert (d : List (String × String)) (k v : String) :
    List (String × String) :=
  if d.any fun p => p.1 = k then
    d.map fun p => if p.1 = k then (k, v) else p
  else
    d ++ [(k, v)]

/-- One iteration of the hidden-field harvesting loop:
`if child.has_attr('name') and child.has_attr('value'):
data[child['name']] = child['value']` — a text node or an element
lacking either attribute leaves `data` untouched. -/
def harvestStep (d : List (String × String)) (node : FormNode) :
    List (String × String) :=
  match node with
  | FormNode.element attrs =>
      match attrLookup attrs "name", attrLookup attrs "value" with
      | some n, some v => dictInsert d n v
      | _, _ => d
  | FormNode.textNode _ => d

/-- The hidden-field harvesting loop:
`for child in login_form.find_all(text=False): ...`. -/
def harvestFields (children : List FormNode) : List (String × String) :=
  children.foldl harvestStep []

/-- The name/value pairs of the qualifying element nodes, in document
order, before dict collapsing.  (`N` in the claims is the length of this
list.) -/
def hiddenPairs (children : List FormNode) : List (String × String) :=
  children.filterMap fun node =>
    match node with
    | FormNode.element attrs =>
        match attrLookup attrs "name", attrLookup attrs "value" with
        | some n, some v => some (n, v)
        | _, _ => none
    | FormNode.textNode _ => none

/-- `'<div id="msg" class="success"'` -/
def successMarker : String := "<div id=\"msg\" class=\"success\""

inductive CasEvent where
  /-- `self.get(self.LOGIN_ENDPOINT)` -/
  | getLogin
  /-- `self.post(login_form['action'], data=data)` -/
  | postForm (action : String) (data : List (String × String))
deriving DecidableEq

inductive CasErr where
  | invalidLogin
deriving DecidableEq

/-- The `data` dict at submission time: the harvested hidden fields,
then `data['username'] = self.username` and
`data['password'] = self.password`. -/
def casAuthData (username password : String) (page : LoginPage) :
    List (String × String) :=
  dictInsert (dictInsert (harvestFields page.form.children) "username" username)
    "password" password

/-- Embedding of `CAS.auth`.  `postResp` is the server's response to the
credential submission. -/
def casAuth (username password : String) (page : LoginPage)
    (postResp : String → List (String × String) → Resp) :
    Except CasErr Unit × List CasEvent :=
  if strContains page.text successMarker then
    -- already logged in
    (Except.ok (), [CasEvent.getLogin])
  else
    if strContains (postResp page.form.action
        (casAuthData username password page)).text successMarker then
      (Except.ok (),
       [CasEvent.getLogin,
        CasEvent.postForm page.form.action (casAuthData username password page)])
    else
      (Except.error CasErr.invalidLogin,
       [CasEvent.getLogin,
        CasEvent.postForm page.form.action (casAuthData username password page)])

/-! ## `Term`, `Session`, `Course` (models.py)

`Session` is the enum of annual term sessions; `Term.code` is
`'{0}{1}'.format(self.year, self.session.value)`.

`Term.__eq__` (line 86-87) is
`isinstance(other, Term) and str(self.year) == str(other.year) and
self.session == other.session`; the constructor stores `self.year =
int(year)`, and on Python integers `str` is injective, so the
`str`-comparison coincides with integer equality, which is how it is
embedded here.

`Course.__eq__` (line 220-221) is
`isinstance(other, Course) and self.crn == other.crn and
self.term == other.term`. -/

inductive Session where
  | fallQuarter | fallSemester | summerSession2 | summerSpecial
  | summerSession1 | springQuarter | springSemester | winterQuarter
deriving DecidableEq

/-- `Session` member values (`'10'`, `'09'`, ...). -/
def Session.value : Session → String
  | fallQuarter => "10"
  | fallSemester => "09"
  | summerSession2 => "07"
  | summerSpecial => "06"
  | summerSession1 => "05"
  | springQuarter => "03"
  | springSemester => "02"
  | winterQuarter => "01"

structure PyTerm where
  year : Int
  session : Session
deriving DecidableEq

/-- `Term.__eq__` (between two `Term` objects). -/
def termEq (a b : PyTerm) : Bool :=
  decide (a.year = b.year) && decide (a.session = b.session)

/-- `Term.code`: `'{0}{1}'.format(self.year, self.session.value)`. -/
def termCode (t : PyTerm) : String :=
  toString t.year ++ t.session.value

/-- `Course`, restricted to the natural key plus a sample of the other
populated attributes (title, instructor, seats, meetings, ...), enough to
express that equality ignores them. -/
structure PyCourse where
  crn : String
  term : PyTerm
  name : Option String
  title : Option String
  instructor : Option String
  available_seats : Option Int
  max_enrollment : Option Int
  meetings : List String
  description : Option String
deriving DecidableEq

/-- `Course.__eq__` (between two `Course` objects). -/
def courseEq (a b : PyCourse) : Bool :=
  decide (a.crn = b.crn) && termEq a.term b.term

/-! ## `term_sensitive` (schedule_builder.py lines 19-26)

```python
def term_sensitive(func):
    def visit_sb_index(self, term, *args, **kwargs):
        if self.last_term_visited != term:
            self.get('{}?termCode={}'.format(self.HOME_ENDPOINT, term.code))
            self.last_term_visited = term

        return func(self, term, *args, **kwargs)
    return visit_sb_index
```

`self.last_term_visited` starts as `None` (constructor line 45); `None !=
term` is true, and for a `Term` object the derived `!=` is the negation
of `Term.__eq__`.  The decorated operations are `course_query`,
`add_course`, `remove_course` and `register_courses`. -/

def HOME_ENDPOINT : String := "/index.cfm"

/-- The four `@term_sensitive` operations of `ScheduleBuilder`. -/
inductive SBOp where
  | courseQuery | addCourse | removeCourse | registerCourses
deriving DecidableEq

/-- `ScheduleBuilder` navigation state: `self.last_term_visited`. -/
structure SBState where
  last_term_visited : Option PyTerm
deriving DecidableEq

inductive SBEvent where
  /-- the scope-selection request `GET index.cfm?termCode=...` -/
  | scopeSelect (endpoint : String)
  /-- the wrapped operation running for a term -/
  | opRun (op : SBOp) (termCodeArg : String)
deriving DecidableEq

/-- `self.last_term_visited != term` (Python `!=`: true when unset, else
the negation of `Term.__eq__`). -/
def lastTermDiffers (st : SBState) (t : PyTerm) : Bool :=
  match st.last_term_visited with
  | none => true
  | some lt => !termEq lt t

/-- Embedding of one call to a `@term_sensitive` operation: the
scope-selection request and state update, then the operation itself. -/
def runTermSensitive (op : SBOp) (st : SBState) (t : PyTerm) :
    SBState × List SBEvent :=
  if lastTermDiffers st t then
    ({ last_term_visited := some t },
     [SBEvent.scopeSelect (HOME_ENDPOINT ++ "?termCode=" ++ termCode t),
      SBEvent.opRun op (termCode t)])
  else
    (st, [SBEvent.opRun op (termCode t)])

/-- Sequential composition of `@term_sensitive` calls on one client. -/
def runCalls (st : SBState) : List (SBOp × PyTerm) → SBState × List SBEvent
  | [] => (st, [])
  | (op, t) :: rest =>
      let step := runTermSensitive op st t
      let next := runCalls step.1 rest
      (next.1, step.2 ++ next.2)

/-- Number of scope-selection requests in a trace. -/
def countScopeSelect (evs : List SBEvent) : Nat :=
  (evs.filter fun ev => match ev with
    | SBEvent.scopeSelect _ => true
    | _ => false).length

/-! ## `ScheduleBuilder.register_courses` (schedule_builder.py lines 314-347)

The error-classification tail:

```python
r = self.get(self.REGISTER_ENDPOINT, params=query)
# Error checking
for e in self.REGISTRATION_ERRORS:
    if e in r.text:
        raise RegistrationError(e)
```

and the scheduling head:

```python
if at:
    seconds = (at - datetime.now()).total_seconds()
    if seconds > 0:
        time.sleep(seconds)
```

Instants are modelled as exact rationals (Python `datetime` arithmetic is
exact microsecond arithmetic; `total_seconds()` returns the same quantity
in seconds). -/

def REGISTRATION_ERRORS : List String :=
  ["You are already enrolled or waitlisted for this course",
   "Registration is not yet available for this term",
   "Could not register you for this course"]

/-- The registration error-checking loop: the first listed marker found
in the body is raised as `RegistrationError(e)`; `none` means the loop
falls through (success). -/
def checkRegistration (body : String) : Option String :=
  REGISTRATION_ERRORS.find? fun e => strContains body e

/-- Outcome of the scheduling head of `register_courses`: the duration
passed to `time.sleep`, if it is called, and the instant at which the
registration request is issued. -/
structure RegTiming where
  sleptFor : Option ℚ
  fireTime : ℚ
deriving DecidableEq

/-- Embedding of the scheduling head, for a call that supplies `at`.
`now` is the value of `datetime.now()` at the check. -/
def registerTiming (atTime now : ℚ) : RegTiming :=
  let seconds := atTime - now
  if seconds > 0 then
    { sleptFor := some seconds, fireTime := now + seconds }
  else
    { sleptFor := none, fireTime := now }

/-! ## `Registrar.course_query` (registrar.py lines 48-87)

The scanning tail:

```python
soup = BeautifulSoup(r.text, 'html.parser')
courses = list()
for row in soup.find_all('tr'):
    cell = row.find('td')
    if len(cell.contents) and 'Please refine' in cell.contents[0]:
        raise QueryError('Registrar response: "..."')
    if 'onclick' in cell.attrs.keys():
        match = re.search(r'crn=(.+?)&', cell['onclick'])
        courses.append(match.group(1))

return list(set(courses)) # CRNs are unique
```

The parsed body is modelled structurally: a list of table rows, each a
list of `td` cells; a cell carries its content strings and its optional
`onclick` attribute.  `row.find('td')` on a row without a cell returns
`None` and the subsequent attribute access crashes (`AttributeError`),
as does `match.group(1)` when the regex does not match; both crashes are
modelled as a distinct error outcome.  `list(set(courses))` produces each
distinct CRN once in unspecified order; it is modelled by `List.dedup`
(one representative of that set). -/

/-- A `td` cell: its `contents` list (restricted to string children, which
is what the inspected pages contain) and its `onclick` attribute. -/
structure Cell where
  contents : List String
  onclick : Option String
deriving DecidableEq

/-- A table row: its `td` cells in order. -/
abbrev Row := List Cell

inductive ScanErr where
  /-- `QueryError` raised on the refine-your-search marker -/
  | queryError
  /-- an `AttributeError` crash (`None.contents` or `None.group`) -/
  | crash
deriving DecidableEq

/-- Lazy group of `re.search(r'crn=(.+?)&', s)` after a matched `crn=`:
the shortest non-empty run of non-newline characters followed by `&`. -/
def lazyGroupAux (acc : List Char) : List Char → Option (List Char)
  | [] => none
  | c :: rest =>
      if c = '\n' then none
      else
        match rest with
        | '&' :: _ => some (acc ++ [c])
        | _ => lazyGroupAux (acc ++ [c]) rest

/-- `re.search(r'crn=(.+?)&', s).group(1)`: leftmost match wins; at each
start position `crn=` must match literally and the lazy group must be
closable by `&`. -/
def crnSearch : List Char → Option (List Char)
  | [] => none
  | c :: rest =>
      if "crn=".toList.isPrefixOf (c :: rest) then
        match lazyGroupAux [] ((c :: rest).drop 4) with
        | some g => some g
        | none => crnSearch rest
      else crnSearch rest

/-- Python truthiness of `len(cell.contents) and 'Please refine' in
cell.contents[0]`. -/
def cellHasRefine (cell : Cell) : Bool :=
  match cell.contents.head? with
  | some s => strContains s "Please refine"
  | none => false

/-- The body of the `for row in soup.find_all('tr')` loop, for the first
`td` cell of one row: raise, crash, or optionally append a CRN. -/
def rowScan (cell : Cell) : Except ScanErr (Option String) :=
  if cellHasRefine cell then Except.error ScanErr.queryError
  else
    match cell.onclick with
    | none => Except.ok none
    | some oc =>
        match crnSearch oc.toList with
        | some g => Except.ok (some (String.mk g))
        | none => Except.error ScanErr.crash

/-- The full row loop, accumulating `courses` in order. -/
def scanRows : List Row → Except ScanErr (List String)
  | [] => Except.ok []
  | row :: rows =>
      match row.head? with
      | none => Except.error ScanErr.crash
      | some cell =>
          match rowScan cell with
          | Except.error er => Except.error er
          | Except.ok none => scanRows rows
          | Except.ok (some crn) =>
              match scanRows rows with
              | Except.ok crns => Except.ok (crn :: crns)
              | Except.error er => Except.error er

/-- Embedding of the scanning tail of `Registrar.course_query`:
the row loop followed by `list(set(courses))`. -/
def registrarCourseQuery (rows : List Row) : Except ScanErr (List String) :=
  (scanRows rows).map List.dedup

/-- The marker occurs somewhere in the body: in some content string of
some cell of some row. -/
def bodyMentions (rows : List Row) (pat : String) : Bool :=
  rows.any fun row => row.any fun cell =>
    cell.contents.any fun s => strContains s pat

/-- The marker occurs at the one place the code inspects: as part of the
first content item of the first `td` cell of the row. -/
def firstCellRefine (row : Row) : Bool :=
  match row.head? with
  | some cell => cellHasRefine cell
  | none => false

/-! ## Theorems -/

/-- C9: two `Course` records are equal iff their course reference number
(crn) and term match, independent of every other populated field (title,
instructor, seats, meetings, ...); `Term` equality depends only on year
and session. -/
theorem c9_equality_natural_key :
    (∀ a b : PyCourse, courseEq a b = true ↔
        a.crn = b.crn ∧ a.term.year = b.term.year ∧
          a.term.session = b.term.session) ∧
    (∀ t u : PyTerm, termEq t u = true ↔ t.year = u.year ∧ t.session = u.session) := by
  constructor
  · intro a b
    simp [courseEq, termEq, and_assoc]
  · intro t u
    simp [termEq]

/-- C10: whenever `Registrar.course_query` returns normally, the returned
list of CRN strings is duplicate-free, even if the same CRN was matched
in multiple table rows of the response. -/
theorem c10_course_query_nodup (rows : List Row) (res : List String)
    (h : registrarCourseQuery rows = Except.ok res) : res.Nodup := by
  unfold registrarCourseQuery at h
  cases hs : scanRows rows with
  | error er => rw [hs] at h; simp [Except.map] at h
  | ok crns =>
      rw [hs] at h
      simp only [Except.map, Except.ok.injEq] at h
      rw [← h]
      exact List.nodup_dedup crns

/-- Witness for C10: a body matching CRN 33333 in two distinct rows still
yields the duplicate-free result `["33333"]`. -/
theorem c10_course_query_nodup_witness :
    registrarCourseQuery [[⟨[], some "crn=33333&"⟩], [⟨[], some "crn=33333&"⟩]] =
        Except.ok ["33333"] ∧
    (["33333"] : List String).Nodup :=
  ⟨rfl, c10_course_query_nodup
    [[⟨[], some "crn=33333&"⟩], [⟨[], some "crn=33333&"⟩]] ["33333"] rfl⟩

/-- C4: the registration error check raises `RegistrationError` iff the
response body contains one of the three known failure markers; the first
marker found (in list order) is the one raised, the three markers are
pairwise distinct (distinct variants), and a body containing none of them
falls through as success. -/
theorem c4_registration_error_classification (body : String) :
    ((checkRegistration body).isSome ↔
        ∃ e ∈ REGISTRATION_ERRORS, strContains body e = true) ∧
    (checkRegistration body = none ↔
        ∀ e ∈ REGISTRATION_ERRORS, strContains body e = false) ∧
    (∀ e, checkRegistration body = some e →
        e ∈ REGISTRATION_ERRORS ∧ strContains body e = true) ∧
    (∀ e ∈ REGISTRATION_ERRORS, strContains body e = true →
        (∀ f ∈ REGISTRATION_ERRORS, f ≠ e → strContains body f = false) →
        checkRegistration body = some e) ∧
    REGISTRATION_ERRORS.Nodup := by
  refine ⟨?_, ?_, ?_, ?_, by decide⟩
  · rw [checkRegistration, List.find?_isSome]
  · rw [checkRegistration, List.find?_eq_none]
    simp
  · intro e he
    exact ⟨List.mem_of_find?_eq_some he, List.find?_some he⟩
  · intro e he hce hothers
    simp only [REGISTRATION_ERRORS, List.mem_cons, List.not_mem_nil, or_false] at he
    rcases he with rfl | rfl | rfl
    · simp only [checkRegistration, REGISTRATION_ERRORS, List.find?]
      rw [hce]
    · have hf0 : strContains body
          "You are already enrolled or waitlisted for this course" = false :=
        hothers _ (by simp [REGISTRATION_ERRORS]) (by decide)
      simp only [checkRegistration, REGISTRATION_ERRORS, List.find?]
      rw [hf0, hce]
    · have hf0 : strContains body
          "You are already enrolled or waitlisted for this course" = false :=
        hothers _ (by simp [REGISTRATION_ERRORS]) (by decide)
      have hf1 : strContains body
          "Registration is not yet available for this term" = false :=
        hothers _ (by simp [REGISTRATION_ERRORS]) (by decide)
      simp only [checkRegistration, REGISTRATION_ERRORS, List.find?]
      rw [hf0, hf1, hce]

/-- Witness for C4: a body containing exactly the second marker raises
that marker's error. -/
theorem c4_registration_error_classification_witness :
    checkRegistration "<html>Registration is not yet available for this term.</html>" =
      some "Registration is not yet available for this term" :=
  (c4_registration_error_classification _).2.2.2.1
    "Registration is not yet available for this term"
    (by simp [REGISTRATION_ERRORS]) (by decide)
    (by
      intro f hf hne
      simp only [REGISTRATION_ERRORS, List.mem_cons, List.not_mem_nil, or_false] at hf
      rcases hf with rfl | rfl | rfl
      · decide
      · exact absurd rfl hne
      · decide)

/-- `registerTiming` in the positive-delay case. -/
theorem registerTiming_pos {atTime now : ℚ} (h : 0 < atTime - now) :
    registerTiming atTime now =
      { sleptFor := some (atTime - now), fireTime := atTime } := by
  simp only [registerTiming, gt_iff_lt, if_pos h]
  congr 1
  ring

/-- `registerTiming` in the nonpositive-delay case. -/
theorem registerTiming_nonpos {atTime now : ℚ} (h : atTime - now ≤ 0) :
    registerTiming atTime now = { sleptFor := none, fireTime := now } := by
  simp only [registerTiming, gt_iff_lt, if_neg (not_lt.mpr h)]

/-- C5: for a scheduled registration targeting instant `atTime`, the
delay is computed as `atTime - now`; a nonpositive delay issues the
request immediately with no sleep, a positive delay sleeps for exactly
that delay, and in both cases the request is never issued before
`atTime` (nor before `now`). -/
theorem c5_register_timing (atTime now : ℚ) :
    (atTime - now ≤ 0 →
        registerTiming atTime now = { sleptFor := none, fireTime := now }) ∧
    (0 < atTime - now →
        registerTiming atTime now =
          { sleptFor := some (atTime - now), fireTime := atTime }) ∧
    atTime ≤ (registerTiming atTime now).fireTime ∧
    now ≤ (registerTiming atTime now).fireTime := by
  by_cases h : 0 < atTime - now
  · refine ⟨fun hle => absurd h (not_lt.mpr hle), fun _ => registerTiming_pos h,
      ?_, ?_⟩
    · rw [registerTiming_pos h]
    · rw [registerTiming_pos h]
      show now ≤ atTime
      linarith
  · have hle : atTime - now ≤ 0 := not_lt.mp h
    refine ⟨fun _ => registerTiming_nonpos hle, fun hlt => absurd hlt h, ?_, ?_⟩
    · rw [registerTiming_nonpos hle]
      show atTime ≤ now
      linarith
    · rw [registerTiming_nonpos hle]

/-- Witness for C5: target 5 with now 3 sleeps exactly 2 and fires at 5;
target 3 with now 7 fires immediately with no sleep. -/
theorem c5_register_timing_witness :
    ((5 : ℚ) - 3 ≤ 0 → False) ∧
    registerTiming 5 3 = { sleptFor := some 2, fireTime := 5 } ∧
    (3 : ℚ) - 7 ≤ 0 ∧
    registerTiming 3 7 = { sleptFor := none, fireTime := 7 } := by
  refine ⟨by norm_num, ?_, by norm_num, (c5_register_timing 3 7).1 (by norm_num)⟩
  have h := (c5_register_timing 5 3).2.1 (by norm_num)
  rw [h]
  norm_num

/-- C8: on a login page that already contains the success marker,
`CAS.auth` terminates successfully having issued only the initial GET of
the login page: no credential POST is submitted (idempotent no-op). -/
theorem c8_cas_auth_idempotent_noop (u pw : String) (page : LoginPage)
    (postResp : String → List (String × String) → Resp)
    (h : strContains page.text successMarker = true) :
    casAuth u pw page postResp = (Except.ok (), [CasEvent.getLogin]) := by
  unfold casAuth
  rw [if_pos h]

/-- Witness for C8: a page already showing the success marker yields only
the GET, with no form submission. -/
theorem c8_cas_auth_idempotent_noop_witness :
    casAuth "jdoe" "hunter2"
        ⟨"<body><div id=\"msg\" class=\"success\">Log In Successful</div></body>",
         ⟨"/cas/login", [FormNode.element [("name", "lt"), ("value", "tok")]]⟩⟩
        (fun _ _ => ⟨"", ""⟩) =
      (Except.ok (), [CasEvent.getLogin]) :=
  c8_cas_auth_idempotent_noop "jdoe" "hunter2" _ _ (by decide)

/-- C1: for a request whose first response redirects to the central-auth
host (`'cas.ucdavis' in r.url`), `ProtectedApplication.request` invokes
`auth()` exactly once and re-issues the identical request exactly once
more (when the authenticator returns normally; when it raises, the error
propagates and no retry is issued — never more than one retry in any
case); for a first response without the marker there is no authenticator
call and no second request. -/
theorem c1_session_guard_bounded_retry (m b e : String) (respond : Nat → Resp)
    (auth : AuthBehavior) :
    (hasCasMarker (respond 0) = false →
        paRequest m b e respond auth =
          (Except.ok (respond 0), [PAEvent.httpReq m b e])) ∧
    (hasCasMarker (respond 0) = true →
        countAuthCalls (paRequest m b e respond auth).2 = 1 ∧
        countHttpReqs (paRequest m b e respond auth).2 ≤ 2 ∧
        (auth = AuthBehavior.succeeds →
            paRequest m b e respond auth =
              (Except.ok (respond 1),
               [PAEvent.httpReq m b e, PAEvent.authCall,
                PAEvent.httpReq m b e])) ∧
        (auth = AuthBehavior.raisesInvalidLogin →
            paRequest m b e respond auth =
              (Except.error PAErr.invalidLogin,
               [PAEvent.httpReq m b e, PAEvent.authCall]))) := by
  refine ⟨fun h0 => ?_, fun h1 => ?_⟩
  · unfold paRequest
    rw [if_pos h0]
  · unfold paRequest
    rw [if_neg (by simp [h1])]
    cases auth with
    | succeeds =>
        exact ⟨rfl, Nat.le_refl 2, fun _ => rfl, fun hab => absurd hab (by decide)⟩
    | raisesInvalidLogin =>
        exact ⟨rfl, Nat.le_succ 1, fun hab => absurd hab (by decide), fun _ => rfl⟩

/-- Witness for C1: a first response redirected to `cas.ucdavis` triggers
exactly one authenticator call. -/
theorem c1_session_guard_bounded_retry_witness :
    countAuthCalls (paRequest "get" "https://sisweb.ucdavis.edu" "/students"
        (fun n => if n = 0
          then ⟨"https://cas.ucdavis.edu/cas/login?service=x", "login"⟩
          else ⟨"https://sisweb.ucdavis.edu/students", "grades"⟩)
        AuthBehavior.succeeds).2 = 1 :=
  ((c1_session_guard_bounded_retry "get" "https://sisweb.ucdavis.edu" "/students"
      (fun n => if n = 0
        then ⟨"https://cas.ucdavis.edu/cas/login?service=x", "login"⟩
        else ⟨"https://sisweb.ucdavis.edu/students", "grades"⟩)
      AuthBehavior.succeeds).2 (by decide)).1

/-- C2 (counterexample): when both the first and the retried response
carry the central-auth marker and `auth()` returns normally,
`ProtectedApplication.request` returns the second unauthenticated
response as an ordinary result — it raises no typed authentication
failure, contrary to the claim. -/
theorem c2_counterexample :
    (paRequest "get" "https://sisweb.ucdavis.edu" "/students"
        (fun _ => ⟨"https://cas.ucdavis.edu/cas/login?renew=true", "login"⟩)
        AuthBehavior.succeeds) =
      (Except.ok ⟨"https://cas.ucdavis.edu/cas/login?renew=true", "login"⟩,
       [PAEvent.httpReq "get" "https://sisweb.ucdavis.edu" "/students",
        PAEvent.authCall,
        PAEvent.httpReq "get" "https://sisweb.ucdavis.edu" "/students"]) ∧
    hasCasMarker ⟨"https://cas.ucdavis.edu/cas/login?renew=true", "login"⟩ = true :=
  ⟨rfl, by decide⟩

/-- C2 (amended): `ProtectedApplication.request` performs no check on the
retried response: when the first response carries the central-auth
marker, the second response is returned unchanged even if it is also
unauthenticated; a typed authentication failure (`InvalidLoginError`)
reaches the caller only when the authenticator itself raises it. -/
theorem c2_no_second_attempt_check (m b e : String) (respond : Nat → Resp)
    (h : hasCasMarker (respond 0) = true) :
    (paRequest m b e respond AuthBehavior.succeeds).1 = Except.ok (respond 1) ∧
    (paRequest m b e respond AuthBehavior.raisesInvalidLogin).1 =
      Except.error PAErr.invalidLogin := by
  constructor <;> (unfold paRequest; rw [if_neg (by rw [h]; simp)])

/-- Witness for C2's amended statement: both responses unauthenticated,
the second is returned unchanged. -/
theorem c2_no_second_attempt_check_witness :
    (paRequest "get" "https://my.ucdavis.edu" "/schedulebuilder"
        (fun _ => ⟨"https://cas.ucdavis.edu/cas/login", "wall"⟩)
        AuthBehavior.succeeds).1 =
      Except.ok ⟨"https://cas.ucdavis.edu/cas/login", "wall"⟩ :=
  (c2_no_second_attempt_check "get" "https://my.ucdavis.edu" "/schedulebuilder"
    (fun _ => ⟨"https://cas.ucdavis.edu/cas/login", "wall"⟩) (by decide)).1

/-- `termEq` is reflexive. -/
theorem termEq_refl (t : PyTerm) : termEq t t = true := by
  simp [termEq]

/-- C3: a `@term_sensitive` operation (`course_query`, `add_course`,
`remove_course`, `register_courses`) issues no scope-selection request
when `last_term_visited` already equals the requested term; otherwise it
issues exactly one scope-selection request (GET of `HOME_ENDPOINT` with
`termCode`) and updates `last_term_visited` to the requested term before
the operation runs.  Consequently two sequential calls for the same term
issue exactly one scope-selection request total, and a following call
for a different term issues exactly one more. -/
theorem c3_term_sensitive_short_circuit (op : SBOp) (st : SBState) (t : PyTerm) :
    (∀ lt, st.last_term_visited = some lt → termEq lt t = true →
        runTermSensitive op st t = (st, [SBEvent.opRun op (termCode t)])) ∧
    (lastTermDiffers st t = true →
        runTermSensitive op st t =
          ({ last_term_visited := some t },
           [SBEvent.scopeSelect (HOME_ENDPOINT ++ "?termCode=" ++ termCode t),
            SBEvent.opRun op (termCode t)])) ∧
    (∀ op2 op3 t2, termEq t t2 = false →
        countScopeSelect (runCalls ⟨none⟩ [(op, t), (op2, t)]).2 = 1 ∧
        countScopeSelect (runCalls ⟨none⟩ [(op, t), (op2, t), (op3, t2)]).2 = 2) := by
  refine ⟨?_, ?_, ?_⟩
  · intro lt hlast heq
    unfold runTermSensitive
    rw [if_neg]
    simp [lastTermDiffers, hlast, heq]
  · intro hdiff
    unfold runTermSensitive
    rw [if_pos hdiff]
  · intro op2 op3 t2 hne
    constructor <;>
      simp [runCalls, runTermSensitive, lastTermDiffers, termEq_refl, hne,
        countScopeSelect, List.filter]

/-- Witness for C3: two calls for term 202410 issue one scope selection;
a third call for 202403 issues one more. -/
theorem c3_term_sensitive_short_circuit_witness :
    termEq ⟨2024, Session.fallQuarter⟩ ⟨2024, Session.springQuarter⟩ = false ∧
    countScopeSelect (runCalls ⟨none⟩
        [(SBOp.courseQuery, ⟨2024, Session.fallQuarter⟩),
         (SBOp.addCourse, ⟨2024, Session.fallQuarter⟩)]).2 = 1 ∧
    countScopeSelect (runCalls ⟨none⟩
        [(SBOp.courseQuery, ⟨2024, Session.fallQuarter⟩),
         (SBOp.addCourse, ⟨2024, Session.fallQuarter⟩),
         (SBOp.registerCourses, ⟨2024, Session.springQuarter⟩)]).2 = 2 := by
  refine ⟨by decide, ?_, ?_⟩
  · exact ((c3_term_sensitive_short_circuit SBOp.courseQuery ⟨none⟩
      ⟨2024, Session.fallQuarter⟩).2.2 SBOp.addCourse SBOp.registerCourses
      ⟨2024, Session.springQuarter⟩ (by decide)).1
  · exact ((c3_term_sensitive_short_circuit SBOp.courseQuery ⟨none⟩
      ⟨2024, Session.fallQuarter⟩).2.2 SBOp.addCourse SBOp.registerCourses
      ⟨2024, Session.springQuarter⟩ (by decide)).2

/-- C7 (counterexample): a response body that contains
"Please refine your search" — in the second `td` cell of its single row —
makes `Registrar.course_query` return the normal result `["11111"]`
instead of raising `QueryError`: the code only inspects the first content
item of the first cell of each row. -/
theorem c7_counterexample :
    registrarCourseQuery
        [[⟨["X"], some "crn=11111&"⟩, ⟨["Please refine your search"], none⟩]] =
      Except.ok ["11111"] ∧
    bodyMentions
        [[⟨["X"], some "crn=11111&"⟩, ⟨["Please refine your search"], none⟩]]
        "Please refine your search" = true :=
  ⟨rfl, by decide⟩

/-- If `scanRows` returns normally, no scanned row has the refine marker
at the inspected position. -/
theorem scanRows_ok_no_refine (rows : List Row) (crns : List String)
    (h : scanRows rows = Except.ok crns) :
    ∀ row ∈ rows, firstCellRefine row = false := by
  induction rows generalizing crns with
  | nil => intro row hrow; cases hrow
  | cons row rows ih =>
      intro r hr
      rw [scanRows] at h
      cases hh : row.head? with
      | none => simp [hh] at h
      | some cell =>
          simp only [hh] at h
          cases hrs : rowScan cell with
          | error er => simp [hrs] at h
          | ok o =>
              simp only [hrs] at h
              have hcf : cellHasRefine cell = false := by
                cases hb : cellHasRefine cell with
                | false => rfl
                | true =>
                    unfold rowScan at hrs
                    rw [if_pos hb] at hrs
                    simp at hrs
              rcases List.mem_cons.mp hr with rfl | hmem
              · simp [firstCellRefine, hh, hcf]
              · cases o with
                | none => exact ih crns h r hmem
                | some crn =>
                    cases hrest : scanRows rows with
                    | error er => simp [hrest] at h
                    | ok rest => exact ih rest hrest r hmem

/-- C7 (amended): `Registrar.course_query` raises `QueryError` when the
"Please refine" marker appears as part of the first content item of the
first `td` cell of a table row — whenever it returns a normal result
list, no row carries the marker at that position.  A marker occurring
anywhere else in the body (as in the counterexample) is not detected and
a normal result may be returned. -/
theorem c7_refine_marker_never_ok (rows : List Row) (res : List String)
    (h : registrarCourseQuery rows = Except.ok res) :
    ∀ row ∈ rows, firstCellRefine row = false := by
  unfold registrarCourseQuery at h
  cases hs : scanRows rows with
  | error er => rw [hs] at h; cases h
  | ok crns => exact scanRows_ok_no_refine rows crns hs

/-- Witness for C7's amended statement: a normally-returning body has no
row whose first cell starts with the refine marker. -/
theorem c7_refine_marker_never_ok_witness :
    registrarCourseQuery [[⟨["some course"], some "crn=22222&"⟩]] =
        Except.ok ["22222"] ∧
    ∀ row ∈ ([[⟨["some course"], some "crn=22222&"⟩]] : List Row),
      firstCellRefine row = false :=
  ⟨rfl, c7_refine_marker_never_ok [[⟨["some course"], some "crn=22222&"⟩]]
    ["22222"] rfl⟩

/-- C6 (counterexample): a login form whose single hidden input is itself
named `username` (with value `tok`) defeats the claim: the harvested pair
`("username", "tok")` is overwritten by the credential assignment, so the
submitted data holds 2 pairs rather than N + 2 = 3 and the harvested pair
is not submitted verbatim. -/
theorem c6_counterexample :
    (casAuth "jdoe" "pw"
        ⟨"<form id=\"fm1\">", ⟨"/cas/login",
          [FormNode.element [("name", "username"), ("value", "tok")]]⟩⟩
        (fun _ _ => ⟨"", successMarker⟩)).2 =
      [CasEvent.getLogin,
       CasEvent.postForm "/cas/login" [("username", "jdoe"), ("password", "pw")]] ∧
    hiddenPairs [FormNode.element [("name", "username"), ("value", "tok")]] =
      [("username", "tok")] ∧
    ("username", "tok") ∉ [(("username" : String), ("jdoe" : String)),
      ("password", "pw")] ∧
    ¬ ([(("username" : String), ("jdoe" : String)), ("password", "pw")].length =
        [(("username" : String), ("tok" : String))].length + 2) :=
  ⟨rfl, rfl, by decide, by decide⟩

/-- `dictInsert` on a dict not containing the key appends the pair. -/
theorem dictInsert_append {d : List (String × String)} {k v : String}
    (h : ∀ q ∈ d, q.1 ≠ k) : dictInsert d k v = d ++ [(k, v)] := by
  unfold dictInsert
  rw [if_neg]
  simp only [List.any_eq_true, decide_eq_true_eq, not_exists]
  rintro q ⟨hq, hqk⟩
  exact h q hq hqk

/-- Provenance of harvested pairs: every pair of `hiddenPairs` comes from
an element node carrying both a `name` and a `value` attribute. -/
theorem mem_hiddenPairs {children : List FormNode} {p : String × String}
    (h : p ∈ hiddenPairs children) :
    ∃ attrs, FormNode.element attrs ∈ children ∧
      attrLookup attrs "name" = some p.1 ∧ attrLookup attrs "value" = some p.2 := by
  unfold hiddenPairs at h
  rcases List.mem_filterMap.mp h with ⟨node, hnode, hf⟩
  cases node with
  | textNode s => simp at hf
  | element attrs =>
      cases hn : attrLookup attrs "name" with
      | none => simp [hn] at hf
      | some nv =>
          cases hv : attrLookup attrs "value" with
          | none => simp [hn, hv] at hf
          | some vv =>
              simp only [hn, hv, Option.some.injEq] at hf
              rw [← hf]
              exact ⟨attrs, hnode, hn, hv⟩

/-- When the keys to be harvested are pairwise distinct (relative to an
accumulator), the harvesting fold is a plain append: no overwriting
happens. -/
theorem foldl_harvest_of_nodup (children : List FormNode) :
    ∀ d : List (String × String),
      ((d ++ hiddenPairs children).map Prod.fst).Nodup →
      children.foldl harvestStep d = d ++ hiddenPairs children := by
  induction children with
  | nil => intro d _; simp [hiddenPairs]
  | cons node rest ih =>
      intro d hnd
      rw [List.foldl_cons]
      cases node with
      | textNode s =>
          have hh : hiddenPairs (FormNode.textNode s :: rest) = hiddenPairs rest := by
            simp [hiddenPairs]
          rw [hh] at hnd ⊢
          exact ih d hnd
      | element attrs =>
          cases hn : attrLookup attrs "name" with
          | none =>
              have hstep : harvestStep d (FormNode.element attrs) = d := by
                simp [harvestStep, hn]
              have hh : hiddenPairs (FormNode.element attrs :: rest) =
                  hiddenPairs rest := by
                simp [hiddenPairs, hn]
              rw [hh] at hnd
              rw [hstep, hh]
              exact ih d hnd
          | some nv =>
              cases hv : attrLookup attrs "value" with
              | none =>
                  have hstep : harvestStep d (FormNode.element attrs) = d := by
                    simp [harvestStep, hn, hv]
                  have hh : hiddenPairs (FormNode.element attrs :: rest) =
                      hiddenPairs rest := by
                    simp [hiddenPairs, hn, hv]
                  rw [hh] at hnd
                  rw [hstep, hh]
                  exact ih d hnd
              | some vv =>
                  have hh : hiddenPairs (FormNode.element attrs :: rest) =
                      (nv, vv) :: hiddenPairs rest := by
                    simp [hiddenPairs, hn, hv]
                  rw [hh] at hnd
                  have hknot : ∀ q ∈ d, q.1 ≠ nv := by
                    intro q hq hqk
                    have h1 : q.1 ∈ List.map Prod.fst d :=
                      List.mem_map_of_mem Prod.fst hq
                    have h2 : q.1 ∈ List.map Prod.fst ((nv, vv) :: hiddenPairs rest) := by
                      rw [hqk]
                      exact List.mem_map_of_mem Prod.fst (List.mem_cons_self _ _)
                    rw [List.map_append, List.nodup_append] at hnd
                    exact hnd.2.2 h1 h2
                  have hstep : harvestStep d (FormNode.element attrs) =
                      d ++ [(nv, vv)] := by
                    simp only [harvestStep, hn, hv]
                    exact dictInsert_append hknot
                  rw [hstep, hh]
                  have hnd2 : (((d ++ [(nv, vv)]) ++ hiddenPairs rest).map
                      Prod.fst).Nodup := by
                    simpa [List.append_assoc] using hnd
                  rw [ih (d ++ [(nv, vv)]) hnd2]
                  simp

/-- With pairwise-distinct hidden-field names, harvesting collapses
nothing: the dict equals the pair list in document order. -/
theorem harvestFields_eq_hiddenPairs {children : List FormNode}
    (h : ((hiddenPairs children).map Prod.fst).Nodup) :
    harvestFields children = hiddenPairs children := by
  have hfold := foldl_harvest_of_nodup children [] (by simpa using h)
  simpa [harvestFields] using hfold

/-- On a page without the success marker, `CAS.auth` posts the harvested
dict extended with the credential fields to the form's action URL. -/
theorem casAuth_posted (u pw : String) (page : LoginPage)
    (postResp : String → List (String × String) → Resp)
    (hm : strContains page.text successMarker = false) :
    (casAuth u pw page postResp).2 =
      [CasEvent.getLogin,
       CasEvent.postForm page.form.action (casAuthData u pw page)] := by
  unfold casAuth
  rw [if_neg (by rw [hm]; exact Bool.false_ne_true)]
  split <;> rfl

/-- C6 (amended): on a login page without the success marker whose N
harvested hidden fields have pairwise-distinct names, none equal to
`username` or `password`, `CAS.auth` submits exactly those N name/value
pairs verbatim plus the username and password fields (N + 2 pairs) to the
form's declared action URL, and every submitted pair is either a
credential field or comes from an element node carrying both a name and a
value attribute — never from a text node.  (Duplicate hidden-field names
are collapsed by dict insertion, and a hidden field named `username` or
`password` is overwritten by the credentials, as the counterexample
shows; hence the distinctness proviso.) -/
theorem c6_hidden_field_harvest (u pw : String) (page : LoginPage)
    (postResp : String → List (String × String) → Resp)
    (hm : strContains page.text successMarker = false)
    (hnd : ((hiddenPairs page.form.children).map Prod.fst).Nodup)
    (hu : "username" ∉ (hiddenPairs page.form.children).map Prod.fst)
    (hp : "password" ∉ (hiddenPairs page.form.children).map Prod.fst) :
    (casAuth u pw page postResp).2 =
      [CasEvent.getLogin,
       CasEvent.postForm page.form.action
         (hiddenPairs page.form.children ++ [("username", u), ("password", pw)])] ∧
    (hiddenPairs page.form.children ++ [("username", u), ("password", pw)]).length =
      (hiddenPairs page.form.children).length + 2 ∧
    ∀ q ∈ hiddenPairs page.form.children ++ [("username", u), ("password", pw)],
      q = ("username", u) ∨ q = ("password", pw) ∨
      ∃ attrs, FormNode.element attrs ∈ page.form.children ∧
        attrLookup attrs "name" = some q.1 ∧ attrLookup attrs "value" = some q.2 := by
  have hdata0 : harvestFields page.form.children = hiddenPairs page.form.children :=
    harvestFields_eq_hiddenPairs hnd
  have h1 : dictInsert (hiddenPairs page.form.children) "username" u =
      hiddenPairs page.form.children ++ [("username", u)] :=
    dictInsert_append fun q hq hqk =>
      hu (hqk ▸ List.mem_map_of_mem Prod.fst hq)
  have h2 : dictInsert (hiddenPairs page.form.children ++ [("username", u)])
      "password" pw =
      (hiddenPairs page.form.children ++ [("username", u)]) ++ [("password", pw)] :=
    dictInsert_append (by
      intro q hq hqk
      rcases List.mem_append.mp hq with hq1 | hq2
      · exact hp (hqk ▸ List.mem_map_of_mem Prod.fst hq1)
      · have hq2e : q = ("username", u) := by simpa using hq2
        rw [hq2e] at hqk
        have hup : ("username" : String) = "password" := hqk
        exact absurd hup (by decide))
  refine ⟨?_, by simp, ?_⟩
  · rw [casAuth_posted u pw page postResp hm]
    unfold casAuthData
    rw [hdata0, h1, h2]
    simp
  · intro q hq
    rcases List.mem_append.mp hq with hq1 | hq2
    · exact Or.inr (Or.inr (mem_hiddenPairs hq1))
    · rcases List.mem_cons.mp hq2 with hqa | hqb
      · exact Or.inl hqa
      · exact Or.inr (Or.inl (by simpa using hqb))

/-- Witness for C6's amended statement: a form with two distinctly-named
hidden fields submits exactly those two pairs plus the credentials. -/
theorem c6_hidden_field_harvest_witness :
    (casAuth "jdoe" "hunter2"
        ⟨"<form id=\"fm1\">", ⟨"/cas/login",
          [FormNode.element [("name", "lt"), ("value", "e1s1")],
           FormNode.textNode "Please log in",
           FormNode.element [("name", "execution"), ("value", "abc")]]⟩⟩
        (fun _ _ => ⟨"", successMarker⟩)).2 =
      [CasEvent.getLogin,
       CasEvent.postForm "/cas/login"
         [("lt", "e1s1"), ("execution", "abc"),
          ("username", "jdoe"), ("password", "hunter2")]] :=
  (c6_hidden_field_harvest "jdoe" "hunter2"
    ⟨"<form id=\"fm1\">", ⟨"/cas/login",
      [FormNode.element [("name", "lt"), ("value", "e1s1")],
       FormNode.textNode "Please log in",
       FormNode.element [("name", "execution"), ("value", "abc")]]⟩⟩
    (fun _ _ => ⟨"", successMarker⟩)
    (by decide) (by decide) (by decide) (by decide)).1

end Davislib
